import Mathlib

/-
Verification of the sleep-analysis core of the dashboard repository
(`app/services/garmin_service.py` and `app/utils/helpers.py`).

Numbers are modelled by exact rationals (`ℚ`); the one place the code
takes a square root (`variance ** 0.5` in `_calculate_sleep_metrics`)
is modelled by `Real.sqrt` on the rational variance.  Python strings
are modelled by Lean `String`s; the lexicographic string order used by
`list.sort(key=..., reverse=True)` is modelled by an explicit
structural comparison on character lists, and the stable descending
sort itself by `List.insertionSort` (Python's sort is stable, so any
stable sort with the same key order produces the same list).
-/

namespace Dashboard

/-- Lexicographic comparison of character lists by code point, the order
Python uses to compare `str` values: `charListLe a b` holds iff the string
with characters `a` compares `<=` to the string with characters `b`. -/
def charListLe : List Char → List Char → Bool
  | [], _ => true
  | _ :: _, [] => false
  | a :: as, b :: bs =>
    if a < b then true
    else if b < a then false
    else charListLe as bs

/-- Test whether `pat` occurs at the head of `s` (helper for the Python
substring operator `in`). -/
def leadsWith : List Char → List Char → Bool
  | _, [] => true
  | [], _ :: _ => false
  | a :: as, b :: bs => a = b && leadsWith as bs

/-- Python's substring operator `pat in s`, on character lists. -/
def containsSub : List Char → List Char → Bool
  | [], pat => pat.isEmpty
  | a :: t, pat => leadsWith (a :: t) pat || containsSub t pat

/-- Python's `str.lower()` on the ASCII provider labels, as a per-character
map over the character list. -/
def lowerChars (l : List Char) : List Char := l.map Char.toLower

/-- One raw stage segment of a provider record: `activityLevel` is the
free-form stage label, `seconds` the segment duration
(`safe_get(level, 'activityLevel', default='')` / `safe_get(level, 'seconds', default=0)`). -/
structure StageSegment where
  activityLevel : String
  seconds : ℚ
deriving DecidableEq, Repr

/-- The four accumulated stage buckets of `_calculate_sleep_stages`. -/
structure SleepStages where
  deep : ℚ
  light : ℚ
  rem : ℚ
  awake : ℚ
deriving DecidableEq, Repr

/-- One step of the loop body of `_calculate_sleep_stages`: lowercase the
label, convert seconds to minutes, and add to the first bucket whose
substring matches, in the order deep, light, rem, awake. -/
def stageStep (st : SleepStages) (level : StageSegment) : SleepStages :=
  let t := lowerChars level.activityLevel.toList
  let m := level.seconds / 60
  if containsSub t "deep".toList then { st with deep := st.deep + m }
  else if containsSub t "light".toList then { st with light := st.light + m }
  else if containsSub t "rem".toList then { st with rem := st.rem + m }
  else if containsSub t "awake".toList then { st with awake := st.awake + m }
  else st

/-- Embedding of `GarminService._calculate_sleep_stages`: fold the stage
segments into the four buckets, starting from all zeros (the early return
for an empty segment list coincides with the fold over the empty list). -/
def calculateSleepStages (sleep_levels : List StageSegment) : SleepStages :=
  sleep_levels.foldl stageStep ⟨0, 0, 0, 0⟩

/-- One per-day record of the collected series, as appended to
`sleep_data_list` in `get_sleep_analysis`. -/
structure DailySleepSummary where
  date : String
  hours : ℚ
  score : ℚ
  deep_minutes : ℚ
  light_minutes : ℚ
  rem_minutes : ℚ
  awake_minutes : ℚ
deriving DecidableEq, Repr

/-- The key order of `sleep_data.sort(key=lambda x: x['date'], reverse=True)`:
`a` may come before `b` iff `b.date <= a.date` in Python string order. -/
def dateDescRel (a b : DailySleepSummary) : Prop :=
  charListLe b.date.toList a.date.toList = true

instance : DecidableRel dateDescRel := fun a b =>
  inferInstanceAs (Decidable (_ = true))

/-- Embedding of `sleep_data.sort(key=lambda x: x['date'], reverse=True)`:
a stable sort placing larger (more recent) dates first. -/
def sortDesc (s : List DailySleepSummary) : List DailySleepSummary :=
  s.insertionSort dateDescRel

/-- Mean of a projected field over all entries, the pattern
`sum(d[f] for d in sleep_data) / len(sleep_data)` used for `avg_hours`,
`avg_deep`, `avg_light`, `avg_rem`, `avg_awake`. -/
def avgBy (f : DailySleepSummary → ℚ) (s : List DailySleepSummary) : ℚ :=
  (s.map f).sum / (s.length : ℚ)

/-- The `avg_hours` line of `_calculate_sleep_metrics`. -/
def avgHours (s : List DailySleepSummary) : ℚ := avgBy (·.hours) s

/-- Entries with a positive score, `[d for d in sleep_data if d['score'] > 0]`. -/
def scoredEntries (s : List DailySleepSummary) : List DailySleepSummary :=
  s.filter (fun d => 0 < d.score)

/-- The `avg_score` line of `_calculate_sleep_metrics`:
`sum(d['score'] for d in sleep_data if d['score'] > 0) / max(len([...]), 1)`. -/
def avgScore (s : List DailySleepSummary) : ℚ :=
  ((scoredEntries s).map (·.score)).sum / ((max (scoredEntries s).length 1 : ℕ) : ℚ)

/-- The `variance` line of `_calculate_sleep_metrics`:
`sum((d['hours'] - mean_hours) ** 2 for d in sleep_data) / len(sleep_data)`
with `mean_hours = avg_hours`. -/
def hoursVariance (s : List DailySleepSummary) : ℚ :=
  (s.map (fun d => (d.hours - avgHours s) ^ 2)).sum / (s.length : ℚ)

/-- The `std_dev = variance ** 0.5` line (variance is nonnegative, so the
Python fractional power is the real square root). -/
noncomputable def stdDev (s : List DailySleepSummary) : ℝ :=
  Real.sqrt ((hoursVariance s : ℚ) : ℝ)

/-- The consistency-score branch of `_calculate_sleep_metrics` (lines
286-296): `max(0, min(100, 100 - (std_dev * 30)))` when the series has more
than one entry, `100` otherwise. -/
noncomputable def consistencyScore (s : List DailySleepSummary) : ℝ :=
  if 1 < s.length then max 0 (min 100 (100 - stdDev s * 30)) else 100

/-- The `total_debt` line of `_calculate_sleep_metrics`:
`sum(max(0, recommended_hours - d['hours']) for d in sleep_data)` with
`recommended_hours = 8`. -/
def totalDebt (s : List DailySleepSummary) : ℚ :=
  (s.map (fun d => max 0 (8 - d.hours))).sum

/-- The `avg_debt = total_debt / len(sleep_data)` line. -/
def avgDebt (s : List DailySleepSummary) : ℚ :=
  totalDebt s / (s.length : ℚ)

/-- The trend branch of `_calculate_sleep_metrics` (lines 303-315),
applied to the already-sorted series: compare the mean hours of the first
three entries against the mean hours of entries three to six. -/
def trendOf (s : List DailySleepSummary) : String :=
  if 6 ≤ s.length then
    let recent_avg := ((s.take 3).map (·.hours)).sum / 3
    let older_avg := (((s.drop 3).take 3).map (·.hours)).sum / 3
    if older_avg + 1/2 < recent_avg then "improving"
    else if recent_avg < older_avg - 1/2 then "declining"
    else "stable"
  else "insufficient_data"

/-- Python's round-half-to-even of a rational to an integer. -/
def roundHalfEven (x : ℚ) : ℤ :=
  if x - ⌊x⌋ < 1/2 then ⌊x⌋
  else if 1/2 < x - ⌊x⌋ then ⌊x⌋ + 1
  else if 2 ∣ ⌊x⌋ then ⌊x⌋ else ⌊x⌋ + 1

/-- Python's `round(x, ndigits)` on exact rationals. -/
def pyRound (x : ℚ) (ndigits : ℕ) : ℚ :=
  ((roundHalfEven (x * 10 ^ ndigits) : ℤ) : ℚ) / (10 ^ ndigits : ℚ)

/-- Python's round-half-to-even on the real consistency score. -/
noncomputable def roundHalfEvenR (x : ℝ) : ℤ :=
  if x - ⌊x⌋ < 1/2 then ⌊x⌋
  else if 1/2 < x - ⌊x⌋ then ⌊x⌋ + 1
  else if 2 ∣ ⌊x⌋ then ⌊x⌋ else ⌊x⌋ + 1

/-- Python's `round(x, 0)` on a real value. -/
noncomputable def pyRound0R (x : ℝ) : ℝ := ((roundHalfEvenR x : ℤ) : ℝ)

/-- Format a rational that is a whole number of tenths the way a Python
f-string renders the float `round(debt, 1)`, e.g. `2 ↦ "2.0"`. -/
def formatTenths (q : ℚ) : String :=
  toString (⌊q * 10⌋ / 10) ++ "." ++ toString (⌊q * 10⌋ % 10)

/-- The debt-warning f-string of `_generate_sleep_recommendations`. -/
def debtMessage (debt : ℚ) : String :=
  "\u00E2\u00B0 You have " ++ formatTenths (pyRound debt 1) ++
    " hours of daily sleep debt. Consider a weekend catch-up sleep session."

/-- Embedding of `GarminService._generate_sleep_recommendations`: the six
sequential append blocks, written as list concatenation. -/
noncomputable def generateSleepRecommendations (avg_hours avg_score : ℚ)
    (consistency : ℝ) (deep_minutes rem_minutes debt : ℚ) : List String :=
  (if avg_hours < 7 then
    ["\u00E2\u0161\u00A0\u00EF\u00B8 You\u0027re averaging less than 7 hours. Aim for 7-9 hours for optimal recovery."]
  else if 9 < avg_hours then
    ["\u00F0\u0178\u2019\u00A4 Sleeping over 9 hours might indicate poor sleep quality. Check for disruptions."]
  else
    ["\u00E2\u0153\u2026 Great sleep duration! You\u0027re in the optimal 7-9 hour range."])
  ++ (if avg_score < 70 then
    ["\u00F0\u0178\u201C\u2030 Low sleep quality detected. Consider reducing caffeine and screen time before bed."]
  else if 80 ≤ avg_score then
    ["\u00F0\u0178\u0152\u0178 Excellent sleep quality! Keep up your sleep routine."]
  else [])
  ++ (if consistency < 70 then
    ["\u00F0\u0178\u201D\u201E Inconsistent sleep schedule. Try going to bed at the same time each night."]
  else
    ["\u00E2\u0153\u2026 Good sleep consistency! Regular schedule helps optimize recovery."])
  ++ (if deep_minutes < 60 then
    ["\u00F0\u0178\u201D Low deep sleep. Avoid alcohol and exercise 3+ hours before bedtime."]
  else if 120 < deep_minutes then
    ["\u00F0\u0178\u2019\u00AA Excellent deep sleep! Your body is recovering optimally."]
  else [])
  ++ (if rem_minutes < 60 then
    ["\u00F0\u0178\u00A7\u00A0 Low REM sleep. Manage stress and maintain consistent sleep times."]
  else if 120 < rem_minutes then
    ["\u00F0\u0178\u017D\u00AF Great REM sleep! Your mind is processing and learning well."]
  else [])
  ++ (if 1 < debt then [debtMessage debt] else [])

/-- The `averages` sub-dictionary of the analysis result. -/
structure SleepAverages where
  hours : ℚ
  score : ℚ
  deep_minutes : ℚ
  light_minutes : ℚ
  rem_minutes : ℚ
  awake_minutes : ℚ
deriving DecidableEq, Repr

/-- The `sleep_debt` sub-dictionary of the analysis result. -/
structure SleepDebtInfo where
  total_hours : ℚ
  avg_daily : ℚ
deriving DecidableEq, Repr

/-- The result shape of `get_sleep_analysis` / `_calculate_sleep_metrics` /
`_get_fallback_sleep_analysis`. -/
structure SleepAnalysis where
  weekly_data : List DailySleepSummary
  averages : SleepAverages
  consistency_score : ℝ
  sleep_debt : SleepDebtInfo
  trend : String
  optimal_bedtime : String
  recommendations : List String

/-- Embedding of `GarminService._get_fallback_sleep_analysis`. -/
def fallbackSleepAnalysis (reason : String) : SleepAnalysis where
  weekly_data := []
  averages := ⟨0, 0, 0, 0, 0, 0⟩
  consistency_score := 0
  sleep_debt := ⟨0, 0⟩
  trend := "unavailable"
  optimal_bedtime := "N/A"
  recommendations := ["Sleep analysis unavailable: " ++ reason]

/-- Embedding of `GarminService._calculate_sleep_metrics`: the in-place
descending sort is modelled by computing every metric on `sortDesc s`. -/
noncomputable def calculateSleepMetrics (sleep_data : List DailySleepSummary) :
    SleepAnalysis :=
  if sleep_data = [] then fallbackSleepAnalysis "No data"
  else
    let sorted := sortDesc sleep_data
    { weekly_data := sorted
      averages :=
        { hours := pyRound (avgHours sorted) 1
          score := pyRound (avgScore sorted) 0
          deep_minutes := pyRound (avgBy (·.deep_minutes) sorted) 0
          light_minutes := pyRound (avgBy (·.light_minutes) sorted) 0
          rem_minutes := pyRound (avgBy (·.rem_minutes) sorted) 0
          awake_minutes := pyRound (avgBy (·.awake_minutes) sorted) 0 }
      consistency_score := pyRound0R (consistencyScore sorted)
      sleep_debt :=
        ⟨pyRound (totalDebt sorted) 1, pyRound (avgDebt sorted) 1⟩
      trend := trendOf sorted
      optimal_bedtime := "22:30 - 23:00"
      recommendations :=
        generateSleepRecommendations (avgHours sorted) (avgScore sorted)
          (consistencyScore sorted) (avgBy (·.deep_minutes) sorted)
          (avgBy (·.rem_minutes) sorted) (avgDebt sorted) }

/-- The non-happy-path environment of `get_sleep_analysis`: missing
credentials, `ImportError` from the client library, a connection failure
raised before or during the window loop, or a working client whose per-date
fetch yields `some` summary for the dates that parse and `none` for dates
that fail or lack a record (`fetch i` is the attempt for the date `i` days
before today). -/
inductive FetchEnv where
  | notConfigured
  | libraryMissing
  | connectionFailed
  | ok (fetch : ℕ → Option DailySleepSummary)

/-- The window-collection loop of `get_sleep_analysis` (lines 187-226):
one attempt per offset `0, ..., days-1`; failed or absent days contribute
nothing. -/
def collectWindow (fetch : ℕ → Option DailySleepSummary) (days : ℕ) :
    List DailySleepSummary :=
  (List.range days).filterMap fetch

/-- Embedding of `GarminService.get_sleep_analysis` over the fetch
environment: the three entry failures and the empty collected window give
the fallback analysis with their distinctive reasons; otherwise the
collected series is analysed. -/
noncomputable def getSleepAnalysis (env : FetchEnv) (days : ℕ) : SleepAnalysis :=
  match env with
  | .notConfigured => fallbackSleepAnalysis "Not configured"
  | .libraryMissing => fallbackSleepAnalysis "Library not installed"
  | .connectionFailed => fallbackSleepAnalysis "Connection failed"
  | .ok fetch =>
    let sleep_data_list := collectWindow fetch days
    if sleep_data_list = [] then fallbackSleepAnalysis "No data available"
    else calculateSleepMetrics sleep_data_list

/-- Python values as far as `safe_get` distinguishes them: `None`,
dictionaries, and everything else (modelled by a few representative
constructors). -/
inductive PyVal where
  | none
  | boolean (b : Bool)
  | num (q : ℚ)
  | str (s : String)
  | dict (entries : List (String × PyVal))

/-- Python's `x is None` test. -/
def PyVal.isNone : PyVal → Bool
  | .none => true
  | _ => false

/-- Python's `dict.get(key)`: the first binding of `key`, or `None` when
the key is absent. -/
def lookupKey : List (String × PyVal) → String → PyVal
  | [], _ => PyVal.none
  | (k, v) :: rest, key => if k = key then v else lookupKey rest key

/-- Embedding of `helpers.safe_get`: walk the key path; bail out with the
default as soon as the current value is not a dictionary or the key lookup
yields `None`; after the last key return the value unless it is `None`. -/
def safe_get (dictionary : PyVal) (keys : List String) (default : PyVal) :
    PyVal :=
  match keys with
  | [] => if dictionary.isNone then default else dictionary
  | key :: rest =>
    match dictionary with
    | PyVal.dict entries =>
      if (lookupKey entries key).isNone then default
      else safe_get (lookupKey entries key) rest default
    | _ => default

/-! Spec-side definitions, written from the specification text, to be
compared with the definitions translated from the code. -/

/-- Mean of the hours field, as the specification words it. -/
def specMeanHours (s : List DailySleepSummary) : ℚ :=
  (s.map (·.hours)).sum / (s.length : ℚ)

/-- Population standard deviation of the hours field across the series,
as the specification words it. -/
noncomputable def specPopStdDev (s : List DailySleepSummary) : ℝ :=
  Real.sqrt (((s.map (fun d => (d.hours - specMeanHours s) ^ 2)).sum /
    (s.length : ℚ) : ℚ))

/-- The specification formula `clamp(0, 100, 100 - sigma * 30)`. -/
noncomputable def specConsistencyClamp (s : List DailySleepSummary) : ℝ :=
  max 0 (min 100 (100 - specPopStdDev s * 30))

/-- The four stage buckets as a closed enumeration, for the spec-side
classification of a segment label. -/
inductive StageKind where
  | deep
  | light
  | rem
  | awake
deriving DecidableEq, Repr

/-- Spec-side classification of a segment label: case-insensitive substring
match against deep, light, rem, awake in that fixed priority order, first
match winning; `none` when no substring matches. -/
def specClassify (label : String) : Option StageKind :=
  let t := lowerChars label.toList
  if containsSub t "deep".toList then some .deep
  else if containsSub t "light".toList then some .light
  else if containsSub t "rem".toList then some .rem
  else if containsSub t "awake".toList then some .awake
  else none

/-- Add `m` minutes to the bucket selected by the classification, or to no
bucket at all when the classification is `none`. -/
def bumpStage (st : SleepStages) (k : Option StageKind) (m : ℚ) : SleepStages :=
  match k with
  | some .deep => { st with deep := st.deep + m }
  | some .light => { st with light := st.light + m }
  | some .rem => { st with rem := st.rem + m }
  | some .awake => { st with awake := st.awake + m }
  | none => st

/-- The specification formula for the per-series score average: sum of the
positive scores divided by the number of positive-score entries, the
denominator floored at one. -/
def specAvgScore (s : List DailySleepSummary) : ℚ :=
  ((s.filter (fun d => 0 < d.score)).map (·.score)).sum /
    ((max (s.filter (fun d => 0 < d.score)).length 1 : ℕ) : ℚ)

/-- The specification formula for the total sleep debt: per-day debt
`max(0, 8.0 - hours)` summed over the series. -/
def specTotalDebt (s : List DailySleepSummary) : ℚ :=
  (s.map (fun d => max 0 (8 - d.hours))).sum

/-! Helper lemmas shared by the claim proofs. -/

theorem metricsEq (s : List DailySleepSummary) (h : s ≠ []) :
    calculateSleepMetrics s =
      { weekly_data := sortDesc s
        averages :=
          { hours := pyRound (avgHours (sortDesc s)) 1
            score := pyRound (avgScore (sortDesc s)) 0
            deep_minutes := pyRound (avgBy (·.deep_minutes) (sortDesc s)) 0
            light_minutes := pyRound (avgBy (·.light_minutes) (sortDesc s)) 0
            rem_minutes := pyRound (avgBy (·.rem_minutes) (sortDesc s)) 0
            awake_minutes := pyRound (avgBy (·.awake_minutes) (sortDesc s)) 0 }
        consistency_score := pyRound0R (consistencyScore (sortDesc s))
        sleep_debt :=
          ⟨pyRound (totalDebt (sortDesc s)) 1, pyRound (avgDebt (sortDesc s)) 1⟩
        trend := trendOf (sortDesc s)
        optimal_bedtime := "22:30 - 23:00"
        recommendations :=
          generateSleepRecommendations (avgHours (sortDesc s))
            (avgScore (sortDesc s)) (consistencyScore (sortDesc s))
            (avgBy (·.deep_minutes) (sortDesc s))
            (avgBy (·.rem_minutes) (sortDesc s)) (avgDebt (sortDesc s)) } := by
  simp only [calculateSleepMetrics, if_neg h]

theorem sortDesc_perm (s : List DailySleepSummary) : (sortDesc s).Perm s :=
  List.perm_insertionSort dateDescRel s

theorem avgBy_sortDesc (f : DailySleepSummary → ℚ) (s : List DailySleepSummary) :
    avgBy f (sortDesc s) = avgBy f s := by
  unfold avgBy
  rw [((sortDesc_perm s).map f).sum_eq, (sortDesc_perm s).length_eq]

theorem avgHours_sortDesc (s : List DailySleepSummary) :
    avgHours (sortDesc s) = avgHours s :=
  avgBy_sortDesc _ s

theorem scoredEntries_sortDesc (s : List DailySleepSummary) :
    (scoredEntries (sortDesc s)).Perm (scoredEntries s) :=
  (sortDesc_perm s).filter _

theorem avgScore_sortDesc (s : List DailySleepSummary) :
    avgScore (sortDesc s) = avgScore s := by
  unfold avgScore
  rw [((scoredEntries_sortDesc s).map _).sum_eq, (scoredEntries_sortDesc s).length_eq]

theorem totalDebt_sortDesc (s : List DailySleepSummary) :
    totalDebt (sortDesc s) = totalDebt s := by
  unfold totalDebt
  rw [((sortDesc_perm s).map _).sum_eq]

theorem avgDebt_sortDesc (s : List DailySleepSummary) :
    avgDebt (sortDesc s) = avgDebt s := by
  unfold avgDebt
  rw [totalDebt_sortDesc, (sortDesc_perm s).length_eq]

theorem hoursVariance_sortDesc (s : List DailySleepSummary) :
    hoursVariance (sortDesc s) = hoursVariance s := by
  unfold hoursVariance
  rw [avgHours_sortDesc, ((sortDesc_perm s).map _).sum_eq, (sortDesc_perm s).length_eq]

theorem consistencyScore_sortDesc (s : List DailySleepSummary) :
    consistencyScore (sortDesc s) = consistencyScore s := by
  unfold consistencyScore stdDev
  rw [hoursVariance_sortDesc, (sortDesc_perm s).length_eq]

theorem charListLe_trans (a b c : List Char) (h1 : charListLe a b = true)
    (h2 : charListLe b c = true) : charListLe a c = true := by
  induction a generalizing b c with
  | nil => rfl
  | cons x xs ih =>
    cases b with
    | nil => simp [charListLe] at h1
    | cons y ys =>
      cases c with
      | nil => simp [charListLe] at h2
      | cons z zs =>
        simp only [charListLe] at h1 h2 ⊢
        by_cases hxy : x < y
        · by_cases hyz : y < z
          · rw [if_pos (lt_trans hxy hyz)]
          · by_cases hzy : z < y
            · rw [if_neg hyz, if_pos hzy] at h2
              exact absurd h2 (by simp)
            · have hyz' : y = z := le_antisymm (not_lt.mp hzy) (not_lt.mp hyz)
              rw [if_pos (hyz' ▸ hxy)]
        · by_cases hyx : y < x
          · rw [if_neg hxy, if_pos hyx] at h1
            exact absurd h1 (by simp)
          · have hxy' : x = y := le_antisymm (not_lt.mp hyx) (not_lt.mp hxy)
            rw [if_neg hxy, if_neg hyx] at h1
            by_cases hyz : y < z
            · rw [if_pos (hxy' ▸ hyz)]
            · by_cases hzy : z < y
              · rw [if_neg hyz, if_pos hzy] at h2
                exact absurd h2 (by simp)
              · have hyz' : y = z := le_antisymm (not_lt.mp hzy) (not_lt.mp hyz)
                rw [if_neg hyz, if_neg hzy] at h2
                have hxz : ¬ x < z := by rw [hxy', hyz']; exact lt_irrefl z
                have hzx : ¬ z < x := by rw [hxy', hyz']; exact lt_irrefl z
                rw [if_neg hxz, if_neg hzx]
                exact ih ys zs h1 h2

theorem charListLe_total (a b : List Char) :
    charListLe a b = true ∨ charListLe b a = true := by
  induction a generalizing b with
  | nil => exact Or.inl rfl
  | cons x xs ih =>
    cases b with
    | nil => exact Or.inr rfl
    | cons y ys =>
      simp only [charListLe]
      by_cases hxy : x < y
      · exact Or.inl (by rw [if_pos hxy])
      · by_cases hyx : y < x
        · exact Or.inr (by rw [if_pos hyx])
        · rcases ih ys with h | h
          · exact Or.inl (by rw [if_neg hxy, if_neg hyx]; exact h)
          · exact Or.inr (by rw [if_neg hyx, if_neg hxy]; exact h)

instance dateDescRel_isTrans : IsTrans DailySleepSummary dateDescRel :=
  ⟨fun _ _ _ h1 h2 => charListLe_trans _ _ _ h2 h1⟩

instance dateDescRel_isTotal : IsTotal DailySleepSummary dateDescRel :=
  ⟨fun a b => (charListLe_total b.date.toList a.date.toList).imp id id⟩

theorem filterMap_drop_one (l : List ℕ) (f g : ℕ → Option DailySleepSummary)
    (i : ℕ) (hg : ∀ j, j ≠ i → g j = f j) (hgi : g i = none) :
    l.filterMap g = (l.filter (fun j => j != i)).filterMap f := by
  induction l with
  | nil => rfl
  | cons a t ih =>
    rcases eq_or_ne a i with rfl | ha
    · simp [List.filterMap_cons, hgi, ih]
    · simp [List.filterMap_cons, List.filter_cons, hg a ha, ha, ih]

/-- Sample concrete per-day summaries and fetchers used by witnesses and
counterexamples. -/
def sampleEntry : DailySleepSummary := ⟨"2025-01-01", 8, 75, 90, 0, 90, 0⟩

def sampleFetch : ℕ → Option DailySleepSummary :=
  fun j => if j = 1 then none else some sampleEntry

/-! Claims. -/

/-- C1: for every non-empty series the consistency score (lines 286-296 of
`_calculate_sleep_metrics`) equals `clamp(0, 100, 100 - sigma * 30)` with
`sigma` the population standard deviation of the hours field; a
single-entry series has consistency score 100; and the consistency score
always lies in `[0, 100]`. -/
theorem claim1_consistency_clamp (s : List DailySleepSummary) (h : s ≠ []) :
    consistencyScore s = specConsistencyClamp s
    ∧ (s.length = 1 → consistencyScore s = 100)
    ∧ 0 ≤ consistencyScore s ∧ consistencyScore s ≤ 100 := by
  have hspec : specPopStdDev s = stdDev s := by
    unfold specPopStdDev stdDev hoursVariance specMeanHours avgHours avgBy
    rfl
  have hone : ∀ d : DailySleepSummary, specConsistencyClamp [d] = 100 := by
    intro d
    have hm : specMeanHours [d] = d.hours := by simp [specMeanHours]
    have hσ : specPopStdDev [d] = 0 := by
      simp [specPopStdDev, hm]
    norm_num [specConsistencyClamp, hσ]
  have hmain : consistencyScore s = specConsistencyClamp s := by
    by_cases h1 : 1 < s.length
    · unfold consistencyScore specConsistencyClamp
      rw [if_pos h1, hspec]
    · have h0 : s.length ≠ 0 := fun hh => h (List.length_eq_zero.mp hh)
      have hl : s.length = 1 := by omega
      obtain ⟨d, rfl⟩ := List.length_eq_one.mp hl
      rw [hone d]
      simp [consistencyScore]
  refine ⟨hmain, ?_, ?_, ?_⟩
  · intro hl
    obtain ⟨d, rfl⟩ := List.length_eq_one.mp hl
    rw [hmain, hone d]
  · unfold consistencyScore
    by_cases h1 : 1 < s.length
    · rw [if_pos h1]; exact le_max_left 0 _
    · rw [if_neg h1]; norm_num
  · unfold consistencyScore
    by_cases h1 : 1 < s.length
    · rw [if_pos h1]
      exact max_le (by norm_num) (min_le_left 100 _)
    · rw [if_neg h1]

theorem claim1_witness :
    ([sampleEntry] ≠ []) ∧ consistencyScore [sampleEntry] = 100 :=
  ⟨by simp, (claim1_consistency_clamp [sampleEntry] (by simp)).2.1 rfl⟩

/-- C5: each stage segment is classified by a case-insensitive substring
match against deep, light, rem, awake in that priority order, only the
winning bucket receiving its `seconds / 60`; an unmatched segment
contributes to no bucket.  `"LIGHT_SLEEP"` contributes only to the light
bucket and `"unmeasurable"` to none. -/
theorem claim5_stage_classification :
    (∀ (segs : List StageSegment) (seg : StageSegment),
      calculateSleepStages (segs ++ [seg]) =
        bumpStage (calculateSleepStages segs) (specClassify seg.activityLevel)
          (seg.seconds / 60))
    ∧ (∀ q : ℚ, calculateSleepStages [⟨"LIGHT_SLEEP", q⟩] = ⟨0, q / 60, 0, 0⟩)
    ∧ (∀ q : ℚ, calculateSleepStages [⟨"unmeasurable", q⟩] = ⟨0, 0, 0, 0⟩)
    ∧ specClassify "LIGHT_SLEEP" = some StageKind.light
    ∧ specClassify "unmeasurable" = none := by
  have hstep : ∀ (st : SleepStages) (seg : StageSegment),
      stageStep st seg =
        bumpStage st (specClassify seg.activityLevel) (seg.seconds / 60) := by
    intro st seg
    simp only [stageStep, specClassify, bumpStage]
    split_ifs <;> rfl
  refine ⟨?_, ?_, ?_, by decide, by decide⟩
  · intro segs seg
    unfold calculateSleepStages
    rw [List.foldl_append]
    simp only [List.foldl_cons, List.foldl_nil]
    exact hstep _ _
  · intro q
    have h1 : calculateSleepStages [⟨"LIGHT_SLEEP", q⟩] =
        bumpStage ⟨0, 0, 0, 0⟩ (specClassify "LIGHT_SLEEP") (q / 60) :=
      hstep ⟨0, 0, 0, 0⟩ ⟨"LIGHT_SLEEP", q⟩
    rw [h1, show specClassify "LIGHT_SLEEP" = some StageKind.light from by decide]
    simp [bumpStage]
  · intro q
    have h1 : calculateSleepStages [⟨"unmeasurable", q⟩] =
        bumpStage ⟨0, 0, 0, 0⟩ (specClassify "unmeasurable") (q / 60) :=
      hstep ⟨0, 0, 0, 0⟩ ⟨"unmeasurable", q⟩
    rw [h1, show specClassify "unmeasurable" = none from by decide]
    rfl

/-- C7: every non-happy path of `get_sleep_analysis` (missing credentials,
missing client library, connection failure, empty collected window) returns
the fully shaped fallback analysis, never an exception; the four fallback
results share `trend = "unavailable"`, empty `weekly_data` and all-zero
numeric fields, and differ only in the text of the single recommendation. -/
theorem claim7_fallback_paths :
    (∀ days, getSleepAnalysis FetchEnv.notConfigured days =
      fallbackSleepAnalysis "Not configured")
    ∧ (∀ days, getSleepAnalysis FetchEnv.libraryMissing days =
      fallbackSleepAnalysis "Library not installed")
    ∧ (∀ days, getSleepAnalysis FetchEnv.connectionFailed days =
      fallbackSleepAnalysis "Connection failed")
    ∧ (∀ (fetch : ℕ → Option DailySleepSummary) (days : ℕ),
        collectWindow fetch days = [] →
        getSleepAnalysis (FetchEnv.ok fetch) days =
          fallbackSleepAnalysis "No data available")
    ∧ (∀ reason,
        (fallbackSleepAnalysis reason).trend = "unavailable"
        ∧ (fallbackSleepAnalysis reason).weekly_data = []
        ∧ (fallbackSleepAnalysis reason).averages = ⟨0, 0, 0, 0, 0, 0⟩
        ∧ (fallbackSleepAnalysis reason).consistency_score = 0
        ∧ (fallbackSleepAnalysis reason).sleep_debt = ⟨0, 0⟩
        ∧ (fallbackSleepAnalysis reason).optimal_bedtime = "N/A"
        ∧ (fallbackSleepAnalysis reason).recommendations =
            ["Sleep analysis unavailable: " ++ reason])
    ∧ (∀ r₁ r₂,
        (fallbackSleepAnalysis r₁).weekly_data = (fallbackSleepAnalysis r₂).weekly_data
        ∧ (fallbackSleepAnalysis r₁).averages = (fallbackSleepAnalysis r₂).averages
        ∧ (fallbackSleepAnalysis r₁).consistency_score =
            (fallbackSleepAnalysis r₂).consistency_score
        ∧ (fallbackSleepAnalysis r₁).sleep_debt = (fallbackSleepAnalysis r₂).sleep_debt
        ∧ (fallbackSleepAnalysis r₁).trend = (fallbackSleepAnalysis r₂).trend
        ∧ (fallbackSleepAnalysis r₁).optimal_bedtime =
            (fallbackSleepAnalysis r₂).optimal_bedtime) := by
  refine ⟨fun _ => rfl, fun _ => rfl, fun _ => rfl, ?_,
    fun r => ⟨rfl, rfl, rfl, rfl, rfl, rfl, rfl⟩,
    fun r₁ r₂ => ⟨rfl, rfl, rfl, rfl, rfl, rfl⟩⟩
  intro fetch days hw
  simp [getSleepAnalysis, hw]

theorem claim7_witness :
    collectWindow (fun _ => none) 7 = []
    ∧ getSleepAnalysis (FetchEnv.ok (fun _ => none)) 7 =
        fallbackSleepAnalysis "No data available" :=
  ⟨rfl, claim7_fallback_paths.2.2.2.1 (fun _ => none) 7 rfl⟩

/-- C8: the window loop attempts one fetch per date of the window; the
collected series has length at most `days`, each of its entries comes from
a successful fetch for one of the attempted dates (never zero-filled), and
turning a single date into a failure removes only that date from the
collection. -/
theorem claim8_window_isolation (f g : ℕ → Option DailySleepSummary)
    (days i : ℕ) :
    (collectWindow f days).length ≤ days
    ∧ (∀ d ∈ collectWindow f days, ∃ j, j < days ∧ f j = some d)
    ∧ ((∀ j, j ≠ i → g j = f j) → g i = none →
        collectWindow g days =
          ((List.range days).filter (fun j => j != i)).filterMap f) := by
  refine ⟨?_, ?_, ?_⟩
  · calc (collectWindow f days).length ≤ (List.range days).length :=
          List.length_filterMap_le f (List.range days)
      _ = days := List.length_range days
  · intro d hd
    rw [collectWindow, List.mem_filterMap] at hd
    obtain ⟨j, hj, hfj⟩ := hd
    exact ⟨j, List.mem_range.mp hj, hfj⟩
  · intro hg hgi
    exact filterMap_drop_one _ f g i hg hgi

theorem claim8_witness :
    (collectWindow sampleFetch 3).length ≤ 3
    ∧ collectWindow sampleFetch 3 =
        ((List.range 3).filter (fun j => j != 1)).filterMap sampleFetch :=
  ⟨(claim8_window_isolation sampleFetch sampleFetch 3 1).1,
   (claim8_window_isolation sampleFetch sampleFetch 3 1).2.2
     (fun _ _ => rfl) rfl⟩

/-- C9 (implicit): the `weekly_data` field of a non-empty analysis is the
input series sorted by date in descending order: a permutation of the
input that is sorted for the descending date order, namely the stable
descending sort of the input. -/
theorem claim9_weekly_sorted (s : List DailySleepSummary) (h : s ≠ []) :
    (calculateSleepMetrics s).weekly_data.Perm s
    ∧ List.Sorted dateDescRel (calculateSleepMetrics s).weekly_data
    ∧ (calculateSleepMetrics s).weekly_data = sortDesc s := by
  rw [metricsEq s h]
  exact ⟨sortDesc_perm s, List.sorted_insertionSort dateDescRel s, rfl⟩

theorem claim9_witness :
    ([sampleEntry] ≠ []) ∧
      (calculateSleepMetrics [sampleEntry]).weekly_data.Perm [sampleEntry] :=
  ⟨by simp, (claim9_weekly_sorted [sampleEntry] (by simp)).1⟩

/-- C10: `safe_get` is total and returns the default whenever a key along
the path is absent, an intermediate value is not a dictionary, or the value
found at some level is `None`; a key bound to `None` is indistinguishable
from an absent key. -/
theorem claim10_safe_get_defaults :
    (∀ (ks : List String) (d : PyVal), safe_get PyVal.none ks d = d)
    ∧ (∀ (v : PyVal) (k : String) (ks : List String) (d : PyVal),
        (∀ es, v ≠ PyVal.dict es) → safe_get v (k :: ks) d = d)
    ∧ (∀ (es : List (String × PyVal)) (k : String) (ks : List String) (d : PyVal),
        lookupKey es k = PyVal.none → safe_get (PyVal.dict es) (k :: ks) d = d)
    ∧ (∀ (es : List (String × PyVal)) (k : String) (ks : List String) (d : PyVal),
        (lookupKey es k).isNone = false →
        safe_get (PyVal.dict es) (k :: ks) d = safe_get (lookupKey es k) ks d)
    ∧ (∀ (es₁ es₂ : List (String × PyVal)) (k : String) (ks : List String)
        (d : PyVal),
        lookupKey es₁ k = PyVal.none → lookupKey es₂ k = PyVal.none →
        safe_get (PyVal.dict es₁) (k :: ks) d =
          safe_get (PyVal.dict es₂) (k :: ks) d) := by
  have habs : ∀ (es : List (String × PyVal)) (k : String) (ks : List String)
      (d : PyVal), lookupKey es k = PyVal.none →
      safe_get (PyVal.dict es) (k :: ks) d = d := by
    intro es k ks d hk
    simp [safe_get, hk, PyVal.isNone]
  refine ⟨?_, ?_, habs, ?_, ?_⟩
  · intro ks d
    cases ks with
    | nil => simp [safe_get, PyVal.isNone]
    | cons k rest => simp [safe_get]
  · intro v k ks d hv
    cases v with
    | dict es => exact absurd rfl (hv es)
    | none => simp [safe_get]
    | boolean b => simp [safe_get]
    | num q => simp [safe_get]
    | str t => simp [safe_get]
  · intro es k ks d hk
    simp [safe_get, hk]
  · intro es₁ es₂ k ks d h1 h2
    rw [habs es₁ k ks d h1, habs es₂ k ks d h2]

theorem claim10_witness :
    lookupKey [("a", PyVal.none)] "a" = PyVal.none
    ∧ safe_get (PyVal.dict [("a", PyVal.none)]) ["a"] (PyVal.num 5) = PyVal.num 5 :=
  ⟨rfl, claim10_safe_get_defaults.2.2.1 [("a", PyVal.none)] "a" [] (PyVal.num 5) rfl⟩

/-- Six-day series sorted by date descending whose recent three-day mean
hours exceed the older three-day mean by 2. -/
def trendSample : List DailySleepSummary :=
  [⟨"2025-01-06", 8, 0, 0, 0, 0, 0⟩, ⟨"2025-01-05", 8, 0, 0, 0, 0, 0⟩,
   ⟨"2025-01-04", 8, 0, 0, 0, 0, 0⟩, ⟨"2025-01-03", 6, 0, 0, 0, 0, 0⟩,
   ⟨"2025-01-02", 6, 0, 0, 0, 0, 0⟩, ⟨"2025-01-01", 6, 0, 0, 0, 0, 0⟩]

/-- Seven-day series with six hours of sleep each night and no recorded
scores or stage minutes, the test vector of the sleep-debt property. -/
def debtSample : List DailySleepSummary :=
  [⟨"2025-01-07", 6, 0, 0, 0, 0, 0⟩, ⟨"2025-01-06", 6, 0, 0, 0, 0, 0⟩,
   ⟨"2025-01-05", 6, 0, 0, 0, 0, 0⟩, ⟨"2025-01-04", 6, 0, 0, 0, 0, 0⟩,
   ⟨"2025-01-03", 6, 0, 0, 0, 0, 0⟩, ⟨"2025-01-02", 6, 0, 0, 0, 0, 0⟩,
   ⟨"2025-01-01", 6, 0, 0, 0, 0, 0⟩]

/-- Two-day series with scores 0 and 80. -/
def scoreSample : List DailySleepSummary :=
  [⟨"2025-01-02", 7, 0, 0, 0, 0, 0⟩, ⟨"2025-01-01", 7, 80, 0, 0, 0, 0⟩]

/-- C2 counterexample: the claim quantifies over every descending-sorted
series, but the empty series (which is sorted and has fewer than 6 entries)
yields trend `"unavailable"`, not `"insufficient_data"`. -/
theorem claim2_counterexample :
    sortDesc [] = ([] : List DailySleepSummary)
    ∧ ([] : List DailySleepSummary).length < 6
    ∧ (calculateSleepMetrics []).trend = "unavailable"
    ∧ (calculateSleepMetrics []).trend ≠ "insufficient_data" := by
  refine ⟨rfl, by norm_num, rfl, ?_⟩
  intro hc
  have : "unavailable" = "insufficient_data" := hc
  simp at this

/-- C2 amended: for every non-empty series sorted by date descending, with
at least 6 entries the trend is `"improving"` when the recent three-day
mean hours exceed the older three-day mean by more than 0.5, `"declining"`
below -0.5, `"stable"` otherwise; a non-empty series of fewer than 6
entries has trend `"insufficient_data"` (the empty series instead reports
`"unavailable"`). -/
theorem claim2_trend_classification (s : List DailySleepSummary)
    (hne : s ≠ []) (hs : sortDesc s = s) :
    (6 ≤ s.length →
      (((s.take 3).map (·.hours)).sum / 3 -
          (((s.drop 3).take 3).map (·.hours)).sum / 3 > 1/2 →
        (calculateSleepMetrics s).trend = "improving")
      ∧ (((s.take 3).map (·.hours)).sum / 3 -
          (((s.drop 3).take 3).map (·.hours)).sum / 3 < -(1/2) →
        (calculateSleepMetrics s).trend = "declining")
      ∧ (-(1/2) ≤ ((s.take 3).map (·.hours)).sum / 3 -
            (((s.drop 3).take 3).map (·.hours)).sum / 3 →
          ((s.take 3).map (·.hours)).sum / 3 -
            (((s.drop 3).take 3).map (·.hours)).sum / 3 ≤ 1/2 →
        (calculateSleepMetrics s).trend = "stable"))
    ∧ (s.length < 6 → (calculateSleepMetrics s).trend = "insufficient_data") := by
  have ht : (calculateSleepMetrics s).trend = trendOf s := by
    rw [metricsEq s hne]
    show trendOf (sortDesc s) = trendOf s
    rw [hs]
  constructor
  · intro h6
    refine ⟨?_, ?_, ?_⟩
    · intro hgt
      rw [ht]
      unfold trendOf
      rw [if_pos h6]
      dsimp only
      rw [if_pos (by linarith)]
    · intro hlt
      rw [ht]
      unfold trendOf
      rw [if_pos h6]
      dsimp only
      rw [if_neg (by linarith), if_pos (by linarith)]
    · intro hge hle
      rw [ht]
      unfold trendOf
      rw [if_pos h6]
      dsimp only
      rw [if_neg (by linarith), if_neg (by linarith)]
  · intro hlt
    rw [ht]
    unfold trendOf
    rw [if_neg (by omega)]

theorem claim2_witness :
    trendSample ≠ []
    ∧ sortDesc trendSample = trendSample
    ∧ 6 ≤ trendSample.length
    ∧ ((trendSample.take 3).map (·.hours)).sum / 3 -
        (((trendSample.drop 3).take 3).map (·.hours)).sum / 3 > 1/2
    ∧ (calculateSleepMetrics trendSample).trend = "improving" :=
  ⟨by simp [trendSample], by decide, by decide, by norm_num [trendSample],
   ((claim2_trend_classification trendSample (by simp [trendSample])
      (by decide)).1 (by decide)).1 (by norm_num [trendSample])⟩

/-- C3 counterexample: a single-entry series with 8 hours, score 75, 90
deep minutes, 90 rem minutes and no debt triggers only the two
always-present tiers (duration and consistency), so the recommendation
list has length 2, below the claimed lower bound 3. -/
theorem claim3_counterexample :
    (calculateSleepMetrics [sampleEntry]).recommendations.length = 2
    ∧ ¬(3 ≤ (calculateSleepMetrics [sampleEntry]).recommendations.length
        ∧ (calculateSleepMetrics [sampleEntry]).recommendations.length ≤ 7) := by
  have hne : [sampleEntry] ≠ ([] : List DailySleepSummary) := by simp
  have hlen : (calculateSleepMetrics [sampleEntry]).recommendations.length = 2 := by
    rw [metricsEq _ hne]
    show (generateSleepRecommendations (avgHours (sortDesc [sampleEntry]))
      (avgScore (sortDesc [sampleEntry])) (consistencyScore (sortDesc [sampleEntry]))
      (avgBy (·.deep_minutes) (sortDesc [sampleEntry]))
      (avgBy (·.rem_minutes) (sortDesc [sampleEntry]))
      (avgDebt (sortDesc [sampleEntry]))).length = 2
    have hs : sortDesc [sampleEntry] = [sampleEntry] := rfl
    rw [hs]
    have h1 : avgHours [sampleEntry] = 8 := by norm_num [avgHours, avgBy, sampleEntry]
    have h2 : avgScore [sampleEntry] = 75 := by
      norm_num [avgScore, scoredEntries, sampleEntry, List.filter_cons]
    have h3 : consistencyScore [sampleEntry] = 100 := by simp [consistencyScore]
    have h4 : avgBy (·.deep_minutes) [sampleEntry] = 90 := by
      norm_num [avgBy, sampleEntry]
    have h5 : avgBy (·.rem_minutes) [sampleEntry] = 90 := by
      norm_num [avgBy, sampleEntry]
    have h6 : avgDebt [sampleEntry] = 0 := by
      norm_num [avgDebt, totalDebt, sampleEntry]
    rw [h1, h2, h3, h4, h5, h6]
    norm_num [generateSleepRecommendations]
  refine ⟨hlen, ?_⟩
  rw [hlen]
  intro hc
  exact absurd hc.1 (by norm_num)

/-- C3 amended: for every non-empty series the recommendation list has at
least 2 and at most 6 entries (the duration and consistency tiers always
fire; the score, deep, rem and debt tiers each fire at most once). -/
theorem claim3_recommendation_bounds (s : List DailySleepSummary) (h : s ≠ []) :
    2 ≤ (calculateSleepMetrics s).recommendations.length
    ∧ (calculateSleepMetrics s).recommendations.length ≤ 6 := by
  rw [metricsEq s h]
  show 2 ≤ (generateSleepRecommendations (avgHours (sortDesc s))
      (avgScore (sortDesc s)) (consistencyScore (sortDesc s))
      (avgBy (·.deep_minutes) (sortDesc s)) (avgBy (·.rem_minutes) (sortDesc s))
      (avgDebt (sortDesc s))).length ∧ _
  generalize avgHours (sortDesc s) = a
  generalize avgScore (sortDesc s) = b
  generalize consistencyScore (sortDesc s) = c
  generalize avgBy (·.deep_minutes) (sortDesc s) = d
  generalize avgBy (·.rem_minutes) (sortDesc s) = e
  generalize avgDebt (sortDesc s) = f
  unfold generateSleepRecommendations
  split_ifs <;> simp

theorem claim3_witness :
    ([sampleEntry] ≠ [])
    ∧ 2 ≤ (calculateSleepMetrics [sampleEntry]).recommendations.length
    ∧ (calculateSleepMetrics [sampleEntry]).recommendations.length ≤ 6 :=
  ⟨by simp, (claim3_recommendation_bounds [sampleEntry] (by simp)).1,
   (claim3_recommendation_bounds [sampleEntry] (by simp)).2⟩

/-- C4: the average score is the sum of positive scores divided by the
number of positive-score entries floored at one; zero-score entries affect
neither numerator nor denominator; scores `[0, 80]` average to 80, not 40;
an all-zero-score series averages to 0 with no division by zero. -/
theorem claim4_avg_score_excludes_zero :
    (∀ s : List DailySleepSummary, avgScore s = specAvgScore s)
    ∧ (∀ (d : DailySleepSummary) (t : List DailySleepSummary), d.score = 0 →
        avgScore (d :: t) = avgScore t)
    ∧ (∀ s : List DailySleepSummary, (∀ d ∈ s, d.score = 0) → avgScore s = 0)
    ∧ (∀ s : List DailySleepSummary, s ≠ [] →
        (calculateSleepMetrics s).averages.score = pyRound (avgScore s) 0)
    ∧ avgScore scoreSample = 80
    ∧ (calculateSleepMetrics scoreSample).averages.score = 80 := by
  have hconc : avgScore scoreSample = 80 := by
    norm_num [avgScore, scoredEntries, scoreSample, List.filter_cons]
  have hout : ∀ s : List DailySleepSummary, s ≠ [] →
      (calculateSleepMetrics s).averages.score = pyRound (avgScore s) 0 := by
    intro s h
    rw [metricsEq s h]
    show pyRound (avgScore (sortDesc s)) 0 = pyRound (avgScore s) 0
    rw [avgScore_sortDesc]
  refine ⟨fun s => rfl, ?_, ?_, hout, hconc, ?_⟩
  · intro d t hd
    have hfd : ¬ (0 < d.score) := by rw [hd]; norm_num
    unfold avgScore scoredEntries
    rw [List.filter_cons, if_neg (by simpa using hfd)]
  · intro s hall
    have hemp : scoredEntries s = [] := by
      rw [scoredEntries, List.filter_eq_nil_iff]
      intro d hd
      rw [hall d hd]
      norm_num
    norm_num [avgScore, hemp]
  · rw [hout scoreSample (by simp [scoreSample]), hconc]
    norm_num [pyRound, roundHalfEven]

theorem claim4_witness :
    scoreSample ≠ []
    ∧ (calculateSleepMetrics scoreSample).averages.score =
        pyRound (avgScore scoreSample) 0 :=
  ⟨by simp [scoreSample],
   claim4_avg_score_excludes_zero.2.2.2.1 scoreSample (by simp [scoreSample])⟩

/-- C6: per-day debt is `max(0, 8 - hours)` against the fixed 8-hour
baseline, `total_hours` is its sum over the series, `avg_daily` divides by
the series length; on seven nights of 6 hours the analysis reports
`total_hours = 14`, `avg_daily = 2`, and its recommendations contain the
debt warning with `"2.0"` embedded in the text. -/
theorem claim6_sleep_debt :
    (∀ s : List DailySleepSummary, totalDebt s = specTotalDebt s)
    ∧ (∀ s : List DailySleepSummary, avgDebt s = specTotalDebt s / (s.length : ℚ))
    ∧ (∀ s : List DailySleepSummary, s ≠ [] →
        (calculateSleepMetrics s).sleep_debt.total_hours = pyRound (specTotalDebt s) 1
        ∧ (calculateSleepMetrics s).sleep_debt.avg_daily =
            pyRound (specTotalDebt s / (s.length : ℚ)) 1)
    ∧ (calculateSleepMetrics debtSample).sleep_debt.total_hours = 14
    ∧ (calculateSleepMetrics debtSample).sleep_debt.avg_daily = 2
    ∧ debtMessage 2 ∈ (calculateSleepMetrics debtSample).recommendations
    ∧ debtMessage 2 = "â° You have " ++ "2.0" ++
        " hours of daily sleep debt. Consider a weekend catch-up sleep session." := by
  have hne : debtSample ≠ [] := by simp [debtSample]
  have hs : sortDesc debtSample = debtSample := by decide
  have hT : totalDebt debtSample = 14 := by norm_num [totalDebt, debtSample]
  have hA : avgDebt debtSample = 2 := by norm_num [avgDebt, totalDebt, debtSample]
  refine ⟨fun s => rfl, fun s => rfl, ?_, ?_, ?_, ?_, ?_⟩
  · intro s h
    rw [metricsEq s h]
    constructor
    · show pyRound (totalDebt (sortDesc s)) 1 = pyRound (specTotalDebt s) 1
      rw [totalDebt_sortDesc]
      rfl
    · show pyRound (avgDebt (sortDesc s)) 1 = pyRound (specTotalDebt s / (s.length : ℚ)) 1
      rw [avgDebt_sortDesc]
      rfl
  · rw [metricsEq _ hne]
    show pyRound (totalDebt (sortDesc debtSample)) 1 = 14
    rw [hs, hT]
    norm_num [pyRound, roundHalfEven]
  · rw [metricsEq _ hne]
    show pyRound (avgDebt (sortDesc debtSample)) 1 = 2
    rw [hs, hA]
    norm_num [pyRound, roundHalfEven]
  · rw [metricsEq _ hne]
    show debtMessage 2 ∈ generateSleepRecommendations (avgHours (sortDesc debtSample))
      (avgScore (sortDesc debtSample)) (consistencyScore (sortDesc debtSample))
      (avgBy (·.deep_minutes) (sortDesc debtSample))
      (avgBy (·.rem_minutes) (sortDesc debtSample)) (avgDebt (sortDesc debtSample))
    rw [hs]
    have hH : avgHours debtSample = 6 := by norm_num [avgHours, avgBy, debtSample]
    have hS : avgScore debtSample = 0 := by
      norm_num [avgScore, scoredEntries, debtSample, List.filter_cons]
    have hv : hoursVariance debtSample = 0 := by
      norm_num [hoursVariance, avgHours, avgBy, debtSample]
    have hC : consistencyScore debtSample = 100 := by
      unfold consistencyScore stdDev
      rw [if_pos (by decide : 1 < debtSample.length), hv]
      rw [Rat.cast_zero, Real.sqrt_zero]
      norm_num
    have hD : avgBy (·.deep_minutes) debtSample = 0 := by
      norm_num [avgBy, debtSample]
    have hR : avgBy (·.rem_minutes) debtSample = 0 := by
      norm_num [avgBy, debtSample]
    rw [hH, hS, hC, hD, hR, hA]
    norm_num [generateSleepRecommendations]
  · have hpr : pyRound 2 1 = 2 := by norm_num [pyRound, roundHalfEven]
    have hft : formatTenths 2 = "2.0" := by
      have h20 : ⌊(2 : ℚ) * 10⌋ = 20 := by norm_num
      simp [formatTenths, h20]
      decide
    show "â° You have " ++ formatTenths (pyRound 2 1) ++
        " hours of daily sleep debt. Consider a weekend catch-up sleep session." = _
    rw [hpr, hft]

theorem claim6_witness :
    debtSample ≠ []
    ∧ (calculateSleepMetrics debtSample).sleep_debt.total_hours =
        pyRound (specTotalDebt debtSample) 1 :=
  ⟨by simp [debtSample],
   (claim6_sleep_debt.2.2.1 debtSample (by simp [debtSample])).1⟩

end Dashboard
